import Mathlib

set_option maxRecDepth 10000

/-
Verification development for the scrubkit repository (crates/scrubkit-core).

Byte buffers are modelled as `List Nat` (each element a byte value).
External collaborator crates (nom_exif, png) are modelled by explicit
parameters or, where the spec pins their behaviour, by definitions whose
doc comments begin with "Modelled from the spec:".
-/

namespace Scrubkit

/-- Mirrors `MetadataEntry` from lib.rs (lines 26-31): key, value, category. -/
structure MetadataEntry where
  key : String
  value : String
  category : String
deriving Repr, DecidableEq

/-- Mirrors `ScrubResult` from lib.rs (lines 34-40). -/
structure ScrubResult where
  cleaned_file_bytes : List Nat
  metadata_removed : List MetadataEntry
deriving Repr, DecidableEq

/-- Mirrors the `ScrubError` enum from lib.rs (lines 10-23); each
message-carrying variant keeps its message string. -/
inductive ScrubError where
  | UnsupportedFileType (msg : String)
  | ParsingError (msg : String)
  | IoError
  | Unknown
deriving Repr, DecidableEq

/-- Big-endian 16-bit value of two bytes, mirroring
`u16::from_be_bytes([hi, lo])` for byte-sized inputs. -/
def u16be (hi lo : Nat) : Nat := hi * 256 + lo

/-- The 6-byte identifier checked at jpeg.rs line 52: `b"Exif\x5C0\x5C0"`. -/
def exifSig : List Nat := [0x45, 0x78, 0x69, 0x66, 0x00, 0x00]

/-- Classification of a marker type byte by the scan loop of
`find_exif_segment` (jpeg.rs lines 26-33): markers 0xD0-0xD7 and 0x01 are
standalone (skip 2 bytes); 0xD9 and 0xDA break the loop; everything else is
treated as a length-prefixed segment. -/
inductive MarkerClass where
  | standalone
  | terminate
  | lengthPrefixed
deriving Repr, DecidableEq

/-- The decision taken at jpeg.rs lines 26-33 for a marker type byte. -/
def markerClass (marker : Nat) : MarkerClass :=
  if (0xD0 ≤ marker ∧ marker ≤ 0xD7) ∨ marker = 0x01 then .standalone
  else if marker = 0xD9 ∨ marker = 0xDA then .terminate
  else .lengthPrefixed

/-- The target test of jpeg.rs lines 48-53: the combined condition under
which the scan returns the segment at `offset` with length field value
`length` (marker type 0xE1, length at least 6, and the 6 bytes immediately
after the length field in bounds and equal to the Exif identifier). -/
def isExifSegmentAt (bytes : List Nat) (offset length : Nat) : Bool :=
  decide (bytes.getD (offset + 1) 0 = 0xE1) && decide (6 ≤ length) &&
    decide (offset + 4 + 6 ≤ bytes.length) &&
    decide ((bytes.drop (offset + 4)).take 6 = exifSig)

/-- The while loop of `JpegScrubber::find_exif_segment` (jpeg.rs lines
15-64), written with explicit fuel; each iteration advances `offset` by at
least 2, so fuel equal to the buffer length (supplied by
`JpegScrubber.find_exif_segment`) never runs out before the loop condition
fails. The redundant re-check of `offset + 4` at line 35 is subsumed by the
loop condition and omitted. -/
def findExifLoop (bytes : List Nat) : Nat → Nat → Option (Nat × Nat)
  | _, 0 => none
  | offset, fuel + 1 =>
    if offset + 4 ≤ bytes.length then
      if bytes.getD offset 0 = 0xFF then
        match markerClass (bytes.getD (offset + 1) 0) with
        | .standalone => findExifLoop bytes (offset + 2) fuel
        | .terminate => none
        | .lengthPrefixed =>
          let length := u16be (bytes.getD (offset + 2) 0) (bytes.getD (offset + 3) 0)
          if length < 2 ∨ bytes.length < offset + 2 + length then none
          else if isExifSegmentAt bytes offset length then some (offset, length)
          else findExifLoop bytes (offset + 2 + length) fuel
      else none
    else none

/-- Mirrors `JpegScrubber::find_exif_segment` (jpeg.rs lines 13-67): scan
from offset 2 and return (start offset, length field value) of the first
Exif APP1 segment, or none. -/
def JpegScrubber.find_exif_segment (bytes : List Nat) : Option (Nat × Nat) :=
  findExifLoop bytes 2 bytes.length

/-- Mirrors `JpegScrubber::new` (jpeg.rs lines 71-81): reject buffers that
are shorter than 2 bytes or do not begin with FF D8, with a `ParsingError`;
otherwise store the bytes. -/
def JpegScrubber.new (file_bytes : List Nat) : Except ScrubError (List Nat) :=
  if file_bytes.length < 2 ∨ file_bytes.take 2 ≠ [0xFF, 0xD8] then
    .error (.ParsingError "Not a valid JPEG file")
  else .ok file_bytes

/-- One decoded tag handed over by the external nom_exif iterator, as the
code consumes it (jpeg.rs lines 105-156): the sub-block index from
`entry.ifd_index()`, the tag name (which the code never reads), and the
already-rendered value string from `format!` on `entry.get_value()`
(`none` models `get_value` returning None). -/
structure ExifTag where
  ifdIndex : Nat
  tagName : String
  renderedValue : Option String
deriving Repr, DecidableEq

/-- The outcome of the external nom_exif decode consumed by
`JpegScrubber::view_metadata` (jpeg.rs lines 87-100): MediaSource creation
failure, parse failure, or a successful decode yielding tags. -/
inductive ExifDecode where
  | sourceError (msg : String)
  | parseError
  | ok (tags : List ExifTag)
deriving Repr, DecidableEq

/-- The sub-block naming of jpeg.rs lines 120-127. -/
def ifdCategory (ifd : Nat) : String :=
  match ifd with
  | 0 => "IFD0"
  | 1 => "IFD1"
  | 2 => "EXIF"
  | 3 => "GPS"
  | 4 => "Interop"
  | n => "IFD_" ++ toString n

/-- The loop body of `JpegScrubber::view_metadata` (jpeg.rs lines 105-156):
the key is always the placeholder string of line 110, the category names
the sub-block, and the value is the rendered value or the no-value
placeholder of line 148. -/
def jpegEntryOfTag (t : ExifTag) : MetadataEntry :=
  { key := "<Tag Name Unavailable>"
    value :=
      match t.renderedValue with
      | some s => s
      | none => "<No Value>"
    category := ifdCategory t.ifdIndex }

/-- Mirrors `JpegScrubber::view_metadata` (jpeg.rs lines 83-158),
parametrized by the external decode outcome: a MediaSource failure is a
`ParsingError`, a parse failure yields Ok with an empty list (line 98), and
a successful decode maps every tag through the loop body. -/
def JpegScrubber.view_metadata : ExifDecode → Except ScrubError (List MetadataEntry)
  | .sourceError msg => .error (.ParsingError ("Failed to create MediaSource: " ++ msg))
  | .parseError => .ok []
  | .ok tags => .ok (tags.map jpegEntryOfTag)

/-- Mirrors `JpegScrubber::scrub` (jpeg.rs lines 160-230): view the
metadata first, then excise the found segment as
`bytes[..start] ++ bytes[start+length..]`, or, when no segment is found,
return a copy of the original bytes with an empty removal report
(lines 223-229). -/
def JpegScrubber.scrub (file_bytes : List Nat) (dec : ExifDecode) :
    Except ScrubError ScrubResult :=
  match JpegScrubber.view_metadata dec with
  | .error e => .error e
  | .ok metadata_removed =>
    match JpegScrubber.find_exif_segment file_bytes with
    | some (start_offset, segment_length) =>
      .ok { cleaned_file_bytes :=
              file_bytes.take start_offset ++ file_bytes.drop (start_offset + segment_length)
            metadata_removed := metadata_removed }
    | none =>
      .ok { cleaned_file_bytes := file_bytes, metadata_removed := [] }

/-- The 8-byte chunk-format signature from lib.rs line 62 / png. -/
def pngSignature : List Nat := [137, 80, 78, 71, 13, 10, 26, 10]

/-- Modelled from the spec: the structural decode performed by the external
png codec (png::Decoder::read_info, consumed at png.rs lines 15-16, not in
src/) succeeds only if the buffer begins with the fixed 8-byte signature.
Only this necessary signature condition is modelled; further chunk-level
checks are not needed by any claim considered here. -/
def pngStructuralDecodeOk (bytes : List Nat) : Bool :=
  decide (bytes.take 8 = pngSignature)

/-- Mirrors `PngScrubber::new` (png.rs lines 13-22): construction fails
with `UnsupportedFileType` when the structural decode fails. -/
def PngScrubber.new (file_bytes : List Nat) : Except ScrubError (List Nat) :=
  if pngStructuralDecodeOk file_bytes then .ok file_bytes
  else .error (.UnsupportedFileType "Not a valid PNG file.")

/-- One text chunk handed over by the external png codec
(`reader.info().uncompressed_latin1_text`, png.rs line 32). -/
structure TextChunk where
  keyword : String
  text : String
deriving Repr, DecidableEq

/-- Mirrors the collection loop of `PngScrubber::view_metadata` (png.rs
lines 24-41), parametrized by the decoded text chunks in stream order. -/
def PngScrubber.view_metadata (chunks : List TextChunk) : List MetadataEntry :=
  chunks.map fun c =>
    { category := "tEXt/zTXt/iTXt", key := c.keyword, value := c.text }

/-- Which engine a buffer is dispatched to. -/
inductive EngineKind where
  | chunkEngine
  | segmentEngine
deriving Repr, DecidableEq

/-- The detection decision of `scrubber_for_file` (lib.rs lines 60-76):
which constructor is invoked, or `UnsupportedFileType` when neither
signature matches. Construction of the selected engine (which may itself
fail and propagate) is modelled separately by the `new` functions. -/
def scrubber_for_file (file_bytes : List Nat) : Except ScrubError EngineKind :=
  if 8 < file_bytes.length ∧ file_bytes.take 8 = pngSignature then
    .ok .chunkEngine
  else if 2 < file_bytes.length ∧ file_bytes.take 2 = [0xFF, 0xD8] then
    .ok .segmentEngine
  else .error (.UnsupportedFileType "Could not determine file type.")

/-- Whether a construction result is an `UnsupportedFileType` failure. -/
def isUnsupportedFileTypeError : Except ScrubError (List Nat) → Bool
  | .error (.UnsupportedFileType _) => true
  | _ => false

/-- The 209-byte test buffer `TEST_JPEG_WITH_EXIF` of jpeg.rs lines
245-260: SOI, a 0xE1 segment with length field 0x004A = 74 and the Exif
identifier, then the remaining stream. -/
def TEST_JPEG_WITH_EXIF : List Nat :=
  [0xFF, 0xD8, 0xFF, 0xE1, 0x00, 0x4A, 0x45, 0x78, 0x69, 0x66, 0x00, 0x00, 0x4D, 0x4D, 0x00,
   0x2A, 0x00, 0x00, 0x00, 0x08, 0x00, 0x02, 0x01, 0x0F, 0x00, 0x02, 0x00, 0x00, 0x00, 0x0D,
   0x00, 0x00, 0x00, 0x1A, 0x01, 0x10, 0x00, 0x02, 0x00, 0x00, 0x00, 0x0C, 0x00, 0x00, 0x00,
   0x28, 0x00, 0x00, 0x00, 0x00, 0x54, 0x65, 0x73, 0x74, 0x20, 0x43, 0x61, 0x6D, 0x65, 0x72,
   0x61, 0x00, 0x54, 0x65, 0x73, 0x74, 0x20, 0x4D, 0x6F, 0x64, 0x65, 0x6C, 0x00, 0xFF, 0xDB,
   0x00, 0x43, 0x00, 0x01, 0x01, 0x01, 0x01, 0x01, 0x01, 0x01, 0x01, 0x01, 0x01, 0x01, 0x01,
   0x01, 0x01, 0x01, 0x01, 0x01, 0x01, 0x01, 0x01, 0x01, 0x01, 0x01, 0x01, 0x01, 0x01, 0x01,
   0x01, 0x01, 0x01, 0x01, 0x01, 0x01, 0x01, 0x01, 0x01, 0x01, 0x01, 0x01, 0x01, 0x01, 0x01,
   0x01, 0x01, 0x01, 0x01, 0x01, 0x01, 0x01, 0x01, 0x01, 0x01, 0x01, 0x01, 0x01, 0x01, 0x01,
   0x01, 0x01, 0x01, 0x01, 0xFF, 0xC0, 0x00, 0x11, 0x08, 0x00, 0x01, 0x00, 0x01, 0x03, 0x01,
   0x22, 0x00, 0x02, 0x11, 0x01, 0x03, 0x11, 0x01, 0xFF, 0xC4, 0x00, 0x1F, 0x00, 0x00, 0x01,
   0x05, 0x01, 0x01, 0x01, 0x01, 0x01, 0x01, 0x00, 0x00, 0x00, 0x00, 0x00, 0x00, 0x00, 0x00,
   0x01, 0x02, 0x03, 0x04, 0x05, 0x06, 0x07, 0x08, 0x09, 0x0A, 0x0B, 0xFF, 0xDA, 0x00, 0x0C,
   0x03, 0x01, 0x00, 0x02, 0x11, 0x03, 0x11, 0x00, 0x3F, 0x00, 0xF7, 0xC8, 0xFF, 0xD9]

/-- Modelled from the spec: the external tag-dictionary decoder (the
nom_exif collaborator, outside src/) applied to the Scenario A buffer
yields two IFD0 tags, Make = "Test Camera" and Model = "Test Model"; tag
values are modelled already rendered to strings. -/
def scenarioATags : List ExifTag :=
  [{ ifdIndex := 0, tagName := "Make", renderedValue := some "Test Camera" },
   { ifdIndex := 0, tagName := "Model", renderedValue := some "Test Model" }]

/-- The scrub result the code produces on the Scenario A buffer. -/
def scenarioAResult : ScrubResult :=
  { cleaned_file_bytes := TEST_JPEG_WITH_EXIF.take 2 ++ TEST_JPEG_WITH_EXIF.drop 76
    metadata_removed := scenarioATags.map jpegEntryOfTag }

/-- A 12-byte buffer with an Exif segment whose length field is 8. -/
def c1Buffer : List Nat :=
  [0xFF, 0xD8, 0xFF, 0xE1, 0x00, 0x08, 0x45, 0x78, 0x69, 0x66, 0x00, 0x00]

/-- A 12-byte buffer with a 0xE1 segment whose length field is 6, followed
by bytes that happen to spell the Exif identifier. -/
def c7Buffer : List Nat :=
  [0xFF, 0xD8, 0xFF, 0xE1, 0x00, 0x06, 0x45, 0x78, 0x69, 0x66, 0x00, 0x00]

/-- A decode outcome in which the external decoder reports one tag. -/
def c5Decode : ExifDecode :=
  ExifDecode.ok [{ ifdIndex := 0, tagName := "Model", renderedValue := some "Test Model" }]

/-- Soundness of the scan loop: whatever segment it returns starts no
earlier than the scan position, carries marker type 0xE1, reports exactly
the big-endian value of its length field (at least 6), stays inside the
buffer together with two further bytes, and is followed by the Exif
identifier. -/
theorem findExifLoop_sound (bytes : List Nat) :
    ∀ fuel offset start seglen,
      findExifLoop bytes offset fuel = some (start, seglen) →
      offset ≤ start ∧
      bytes.getD (start + 1) 0 = 0xE1 ∧
      seglen = u16be (bytes.getD (start + 2) 0) (bytes.getD (start + 3) 0) ∧
      6 ≤ seglen ∧
      start + 2 + seglen ≤ bytes.length ∧
      start + 10 ≤ bytes.length ∧
      (bytes.drop (start + 4)).take 6 = exifSig := by
  intro fuel
  induction fuel with
  | zero =>
    intro offset start seglen h
    simp [findExifLoop] at h
  | succ n ih =>
    intro offset start seglen h
    rw [findExifLoop] at h
    split at h
    case isTrue hlen =>
      split at h
      case isTrue hff =>
        split at h
        case h_1 =>
          have hrec := ih (offset + 2) start seglen h
          exact ⟨by omega, hrec.2⟩
        case h_2 => simp at h
        case h_3 =>
          simp only [] at h
          split at h
          case isTrue => simp at h
          case isFalse hguard =>
            split at h
            case isTrue htarget =>
              rw [Option.some_inj, Prod.mk.injEq] at h
              obtain ⟨rfl, rfl⟩ := h
              simp only [isExifSegmentAt, Bool.and_eq_true, decide_eq_true_eq] at htarget
              obtain ⟨⟨⟨h1, h2⟩, h3⟩, h4⟩ := htarget
              exact ⟨Nat.le_refl _, h1, rfl, h2, by omega, by omega, h4⟩
            case isFalse =>
              have hrec := ih _ _ _ h
              exact ⟨by omega, hrec.2⟩
      case isFalse => simp at h
    case isFalse => simp at h

/-- C1 counterexample: on `c1Buffer` the scan returns total length 8, which
is the length field value L itself and not 2 + L = 10; accordingly scrub
leaves the last two payload bytes in place instead of removing the whole
marker + length field + payload span. -/
theorem find_exif_total_not_L_plus_two_cex :
    JpegScrubber.find_exif_segment c1Buffer = some (2, 8) ∧
    u16be (c1Buffer.getD 4 0) (c1Buffer.getD 5 0) = 8 ∧
    (8 : Nat) ≠ 2 + 8 ∧
    JpegScrubber.scrub c1Buffer ExifDecode.parseError =
      Except.ok { cleaned_file_bytes := [0xFF, 0xD8, 0x00, 0x00], metadata_removed := [] } ∧
    [0xFF, 0xD8, 0x00, 0x00] ≠ ([0xFF, 0xD8] : List Nat) := by
  exact ⟨by decide, by decide, by decide, rfl, by decide⟩

/-- C1 amended: for every accepted buffer on which the scan locates the
target segment, the returned total equals the length field value L itself
(not 2 + L), and scrub produces bytes[0..start] ++ bytes[start+total..end],
so the removed span covers the 2 marker bytes, the 2 length-field bytes and
the first L - 4 payload bytes. -/
theorem jpeg_scrub_removes_L_bytes (bytes : List Nat) (dec : ExifDecode)
    (md : List MetadataEntry) (start seglen : Nat)
    (hnew : JpegScrubber.new bytes = Except.ok bytes)
    (hview : JpegScrubber.view_metadata dec = Except.ok md)
    (hfind : JpegScrubber.find_exif_segment bytes = some (start, seglen)) :
    seglen = u16be (bytes.getD (start + 2) 0) (bytes.getD (start + 3) 0) ∧
    JpegScrubber.scrub bytes dec =
      Except.ok { cleaned_file_bytes := bytes.take start ++ bytes.drop (start + seglen)
                  metadata_removed := md } := by
  have hs := findExifLoop_sound bytes bytes.length 2 start seglen hfind
  refine ⟨hs.2.2.1, ?_⟩
  unfold JpegScrubber.scrub
  rw [hview, hfind]

/-- Witness for the amended C1 theorem at the Scenario A buffer. -/
theorem jpeg_scrub_removes_L_bytes_witness :
    (74 : Nat) =
      u16be (TEST_JPEG_WITH_EXIF.getD (2 + 2) 0) (TEST_JPEG_WITH_EXIF.getD (2 + 3) 0) ∧
    JpegScrubber.scrub TEST_JPEG_WITH_EXIF (ExifDecode.ok scenarioATags) =
      Except.ok { cleaned_file_bytes :=
                    TEST_JPEG_WITH_EXIF.take 2 ++ TEST_JPEG_WITH_EXIF.drop (2 + 74)
                  metadata_removed := scenarioATags.map jpegEntryOfTag } :=
  jpeg_scrub_removes_L_bytes TEST_JPEG_WITH_EXIF (ExifDecode.ok scenarioATags)
    (scenarioATags.map jpegEntryOfTag) 2 74 rfl rfl (by decide)

/-- C2: on the 209-byte Scenario A buffer, scrub succeeds with a cleaned
buffer of exactly 135 bytes that begins FF D8 followed immediately by the
bytes after the APP1 block (index 76 on), and the removal report (the
modelled decoder output) has length at least 1. -/
theorem scenarioA_scrub :
    JpegScrubber.scrub TEST_JPEG_WITH_EXIF (ExifDecode.ok scenarioATags) =
      Except.ok scenarioAResult ∧
    scenarioAResult.cleaned_file_bytes.length = 135 ∧
    scenarioAResult.cleaned_file_bytes.take 2 = [0xFF, 0xD8] ∧
    scenarioAResult.cleaned_file_bytes.drop 2 = TEST_JPEG_WITH_EXIF.drop 76 ∧
    1 ≤ scenarioAResult.metadata_removed.length := by
  exact ⟨rfl, by decide, by decide, by decide, by decide⟩

/-- C3 counterexample: JPEG construction on [1,2,3] fails, but with the
ParsingError kind, not UnsupportedFileType. -/
theorem jpeg_new_error_kind_cex :
    JpegScrubber.new [1, 2, 3] =
      Except.error (ScrubError.ParsingError "Not a valid JPEG file") ∧
    isUnsupportedFileTypeError (JpegScrubber.new [1, 2, 3]) = false := by
  exact ⟨rfl, by decide⟩

/-- C3 amended: Segment-engine construction fails with ParsingError (not
UnsupportedFileType) for every buffer shorter than 2 bytes or not beginning
FF D8; Chunk-engine construction on [1,2,3] fails with
UnsupportedFileType. -/
theorem construction_rejects_garbage (bytes : List Nat)
    (h : bytes.length < 2 ∨ bytes.take 2 ≠ [0xFF, 0xD8]) :
    JpegScrubber.new bytes =
      Except.error (ScrubError.ParsingError "Not a valid JPEG file") ∧
    PngScrubber.new [1, 2, 3] =
      Except.error (ScrubError.UnsupportedFileType "Not a valid PNG file.") := by
  refine ⟨?_, rfl⟩
  unfold JpegScrubber.new
  rw [if_pos h]

/-- Witness for the amended C3 theorem at the buffer [1,2,3]. -/
theorem construction_rejects_garbage_witness :
    JpegScrubber.new [1, 2, 3] =
      Except.error (ScrubError.ParsingError "Not a valid JPEG file") ∧
    PngScrubber.new [1, 2, 3] =
      Except.error (ScrubError.UnsupportedFileType "Not a valid PNG file.") :=
  construction_rejects_garbage [1, 2, 3] (by decide)

/-- C4 counterexample: the chunk-engine metadata entry category is the
string "tEXt/zTXt/iTXt", not "text chunk". -/
theorem png_view_metadata_category_cex :
    ((PngScrubber.view_metadata [⟨"Author", "ScrubKit Tester"⟩]).getD 0 ⟨"", "", ""⟩).category =
      "tEXt/zTXt/iTXt" ∧
    "tEXt/zTXt/iTXt" ≠ "text chunk" := by
  exact ⟨rfl, by decide⟩

/-- C4 amended: every entry produced from the decoded text chunks has
category "tEXt/zTXt/iTXt" (not "text chunk"), key the chunk keyword and
value the chunk text, in stream order. -/
theorem png_view_metadata_entries (chunks : List TextChunk) (i : Nat)
    (h : i < chunks.length) :
    (PngScrubber.view_metadata chunks).length = chunks.length ∧
    ((PngScrubber.view_metadata chunks).getD i ⟨"", "", ""⟩).category = "tEXt/zTXt/iTXt" ∧
    ((PngScrubber.view_metadata chunks).getD i ⟨"", "", ""⟩).key =
      (chunks.getD i ⟨"", ""⟩).keyword ∧
    ((PngScrubber.view_metadata chunks).getD i ⟨"", "", ""⟩).value =
      (chunks.getD i ⟨"", ""⟩).text := by
  induction chunks generalizing i with
  | nil => simp at h
  | cons c cs ih =>
    cases i with
    | zero => simp [PngScrubber.view_metadata]
    | succ j =>
      have h2 : j < cs.length := by simpa using h
      have hrec := ih j h2
      simpa [PngScrubber.view_metadata] using hrec

/-- Witness for the amended C4 theorem at the Scenario B chunk. -/
theorem png_view_metadata_entries_witness :
    (PngScrubber.view_metadata [⟨"Author", "ScrubKit Tester"⟩]).length =
      ([⟨"Author", "ScrubKit Tester"⟩] : List TextChunk).length ∧
    ((PngScrubber.view_metadata [⟨"Author", "ScrubKit Tester"⟩]).getD 0 ⟨"", "", ""⟩).category =
      "tEXt/zTXt/iTXt" ∧
    ((PngScrubber.view_metadata [⟨"Author", "ScrubKit Tester"⟩]).getD 0 ⟨"", "", ""⟩).key =
      (([⟨"Author", "ScrubKit Tester"⟩] : List TextChunk).getD 0 ⟨"", ""⟩).keyword ∧
    ((PngScrubber.view_metadata [⟨"Author", "ScrubKit Tester"⟩]).getD 0 ⟨"", "", ""⟩).value =
      (([⟨"Author", "ScrubKit Tester"⟩] : List TextChunk).getD 0 ⟨"", ""⟩).text :=
  png_view_metadata_entries [⟨"Author", "ScrubKit Tester"⟩] 0 (by decide)

/-- C5 counterexample: on the accepted buffer [FF, D8] the scan finds no
segment and scrub reports an empty removal list even though view_metadata
returned one entry. -/
theorem jpeg_scrub_not_found_report_cex :
    JpegScrubber.find_exif_segment [0xFF, 0xD8] = none ∧
    JpegScrubber.view_metadata c5Decode =
      Except.ok [{ key := "<Tag Name Unavailable>", value := "Test Model", category := "IFD0" }] ∧
    JpegScrubber.scrub [0xFF, 0xD8] c5Decode =
      Except.ok { cleaned_file_bytes := [0xFF, 0xD8], metadata_removed := [] } ∧
    ([] : List MetadataEntry) ≠
      [{ key := "<Tag Name Unavailable>", value := "Test Model", category := "IFD0" }] := by
  exact ⟨by decide, rfl, rfl, by decide⟩

/-- C5 amended: when the scan finds no target segment, scrub returns the
original bytes and an EMPTY removal report, regardless of what
view_metadata returned. -/
theorem jpeg_scrub_not_found_keeps_bytes (bytes : List Nat) (dec : ExifDecode)
    (md : List MetadataEntry)
    (hnew : JpegScrubber.new bytes = Except.ok bytes)
    (hview : JpegScrubber.view_metadata dec = Except.ok md)
    (hfind : JpegScrubber.find_exif_segment bytes = none) :
    JpegScrubber.scrub bytes dec =
      Except.ok { cleaned_file_bytes := bytes, metadata_removed := [] } := by
  unfold JpegScrubber.scrub
  rw [hview, hfind]

/-- Witness for the amended C5 theorem at the buffer [FF, D8]. -/
theorem jpeg_scrub_not_found_keeps_bytes_witness :
    JpegScrubber.scrub [0xFF, 0xD8] ExifDecode.parseError =
      Except.ok { cleaned_file_bytes := [0xFF, 0xD8], metadata_removed := [] } :=
  jpeg_scrub_not_found_keeps_bytes [0xFF, 0xD8] ExifDecode.parseError [] rfl rfl (by decide)

/-- C6 counterexample: a buffer of exactly 8 bytes equal to the chunk
signature, and a buffer of exactly 2 bytes FF D8, are both rejected as
UnsupportedFileType because the dispatcher requires strictly more than 8
resp. 2 bytes. -/
theorem detect_boundary_cex :
    scrubber_for_file [137, 80, 78, 71, 13, 10, 26, 10] =
      Except.error (ScrubError.UnsupportedFileType "Could not determine file type.") ∧
    scrubber_for_file [0xFF, 0xD8] =
      Except.error (ScrubError.UnsupportedFileType "Could not determine file type.") := by
  exact ⟨rfl, rfl⟩

/-- C6 amended: buffers of length strictly greater than 8 whose first
8 bytes are the chunk signature select the chunk engine; buffers of length
strictly greater than 2 beginning FF D8 select the segment engine;
everything else fails with UnsupportedFileType. -/
theorem detect_engine_selection (bytes : List Nat) :
    (8 < bytes.length ∧ bytes.take 8 = pngSignature →
      scrubber_for_file bytes = Except.ok EngineKind.chunkEngine) ∧
    (2 < bytes.length ∧ bytes.take 2 = [0xFF, 0xD8] →
      scrubber_for_file bytes = Except.ok EngineKind.segmentEngine) ∧
    (¬(8 < bytes.length ∧ bytes.take 8 = pngSignature) ∧
        ¬(2 < bytes.length ∧ bytes.take 2 = [0xFF, 0xD8]) →
      scrubber_for_file bytes =
        Except.error (ScrubError.UnsupportedFileType "Could not determine file type.")) := by
  refine ⟨?_, ?_, ?_⟩
  · intro h
    simp [scrubber_for_file, h]
  · intro h
    have hnot : ¬(8 < bytes.length ∧ bytes.take 8 = pngSignature) := by
      rintro ⟨h8, hsig⟩
      have htt : (bytes.take 8).take 2 = bytes.take 2 := by
        simp [List.take_take]
      rw [hsig, h.2] at htt
      simp [pngSignature] at htt
    simp [scrubber_for_file, hnot, h]
  · rintro ⟨h1, h2⟩
    simp [scrubber_for_file, h1, h2]

/-- Witness for the amended C6 theorem, exercising all three branches. -/
theorem detect_engine_selection_witness :
    scrubber_for_file [137, 80, 78, 71, 13, 10, 26, 10, 0] = Except.ok EngineKind.chunkEngine ∧
    scrubber_for_file [0xFF, 0xD8, 0x00] = Except.ok EngineKind.segmentEngine ∧
    scrubber_for_file [1, 2, 3] =
      Except.error (ScrubError.UnsupportedFileType "Could not determine file type.") :=
  ⟨(detect_engine_selection [137, 80, 78, 71, 13, 10, 26, 10, 0]).1 (by decide),
   (detect_engine_selection [0xFF, 0xD8, 0x00]).2.1 (by decide),
   (detect_engine_selection [1, 2, 3]).2.2 (by decide)⟩

/-- C7 counterexample: on `c7Buffer` a 0xE1 segment with length field 6,
strictly below 8, IS selected as the target, because the code only requires
the length to be at least 6. -/
theorem find_exif_min_length_cex :
    JpegScrubber.find_exif_segment c7Buffer = some (2, 6) ∧
    ¬(8 : Nat) ≤ 6 := by
  exact ⟨by decide, by decide⟩

/-- C7 amended: every segment the scan selects as target has marker type
0xE1, length field value at least 6 (not 8), at least 10 bytes from its
start inside the buffer, and the 6 bytes after its length field equal to
the Exif identifier. -/
theorem find_exif_target_conditions (bytes : List Nat) (start seglen : Nat)
    (hfind : JpegScrubber.find_exif_segment bytes = some (start, seglen)) :
    bytes.getD (start + 1) 0 = 0xE1 ∧
    6 ≤ seglen ∧
    start + 10 ≤ bytes.length ∧
    (bytes.drop (start + 4)).take 6 = exifSig := by
  have hs := findExifLoop_sound bytes bytes.length 2 start seglen hfind
  exact ⟨hs.2.1, hs.2.2.2.1, hs.2.2.2.2.2.1, hs.2.2.2.2.2.2⟩

/-- Witness for the amended C7 theorem at the Scenario A buffer. -/
theorem find_exif_target_conditions_witness :
    TEST_JPEG_WITH_EXIF.getD (2 + 1) 0 = 0xE1 ∧
    6 ≤ 74 ∧
    2 + 10 ≤ TEST_JPEG_WITH_EXIF.length ∧
    (TEST_JPEG_WITH_EXIF.drop (2 + 4)).take 6 = exifSig :=
  find_exif_target_conditions TEST_JPEG_WITH_EXIF 2 74 (by decide)

/-- C8 counterexample: marker 0xD9 terminates the scan; it is not treated
as a length-prefixed segment. -/
theorem marker_d9_terminates_cex :
    markerClass 0xD9 = MarkerClass.terminate ∧
    markerClass 0xD9 ≠ MarkerClass.lengthPrefixed := by
  exact ⟨rfl, by decide⟩

/-- C8 amended: exactly the markers 0xD0 through 0xD7 and 0x01 are
standalone, exactly 0xD9 and 0xDA terminate the scan (not 0xDA alone), and
every other marker type is treated as length-prefixed. -/
theorem marker_classification (m : Nat) :
    (markerClass m = MarkerClass.standalone ↔ (0xD0 ≤ m ∧ m ≤ 0xD7) ∨ m = 0x01) ∧
    (markerClass m = MarkerClass.terminate ↔ m = 0xD9 ∨ m = 0xDA) ∧
    (markerClass m = MarkerClass.lengthPrefixed ↔
      ¬((0xD0 ≤ m ∧ m ≤ 0xD7) ∨ m = 0x01) ∧ ¬(m = 0xD9 ∨ m = 0xDA)) := by
  unfold markerClass
  split_ifs with h1 h2 <;> simp_all <;> omega

/-- C9: the code maps every decoded tag to the fixed placeholder key
"<Tag Name Unavailable>" (jpeg.rs line 110): on the Scenario A decode, the
two tags have the distinct names Make and Model, yet both produced entries
carry the placeholder as key. -/
theorem jpeg_view_metadata_placeholder_keys :
    scenarioATags.map ExifTag.tagName = ["Make", "Model"] ∧
    "Make" ≠ "Model" ∧
    JpegScrubber.view_metadata (ExifDecode.ok scenarioATags) =
      Except.ok
        [{ key := "<Tag Name Unavailable>", value := "Test Camera", category := "IFD0" },
         { key := "<Tag Name Unavailable>", value := "Test Model", category := "IFD0" }] := by
  exact ⟨rfl, by decide, rfl⟩

/-- C10: whenever the scan returns some (start, length), the segment lies
inside the stored buffer: 2 ≤ start and start + length ≤ buffer length, so
the two slice operations of scrub are in bounds. -/
theorem find_exif_segment_in_bounds (bytes : List Nat) (start seglen : Nat)
    (hfind : JpegScrubber.find_exif_segment bytes = some (start, seglen)) :
    2 ≤ start ∧ start + seglen ≤ bytes.length := by
  have hs := findExifLoop_sound bytes bytes.length 2 start seglen hfind
  exact ⟨hs.1, by have := hs.2.2.2.2.1; omega⟩

/-- Witness for the C10 theorem at the Scenario A buffer. -/
theorem find_exif_segment_in_bounds_witness :
    2 ≤ 2 ∧ 2 + 74 ≤ TEST_JPEG_WITH_EXIF.length :=
  find_exif_segment_in_bounds TEST_JPEG_WITH_EXIF 2 74 (by decide)

end Scrubkit
